import Mathlib

/-!
Verification of the provisioning engine in `src/flightctl/context.rs`
(thoughtbot/flightctl-rs).

The engine (`prepare`, `create_context`, `ensure_auth`, `create_auth`,
`ensure_cluster`, `create_cluster`) is embedded as pure Lean functions that
pass the external state explicitly and record every call to an external
collaborator in a trace:

* `Kubeconfig` — the context store's visible state (which context, auth and
  cluster entries exist).  The store adapter (`kubeconfig.rs`, not part of
  the core source) is modelled from the spec's interface: existence checks
  read the state, creation primitives insert into it, and each call may fail.
* `FS` — the filesystem's temporary-file namespace: a list of live temp
  files (id and content) plus a counter supplying fresh ids.
* `Env` — the outcome of each fallible external call (store reads/writes,
  the cloud query, base64 decoding, temp-file creation/write/close), so that
  every error path of the Rust code is reachable in the model.
* `Event` — one constructor per observable external call; store writes and
  cloud queries are distinguished so that "zero store-write calls" and
  "zero cloud-provider calls" are statements about the trace.
-/

namespace Flightctl

/-- Error taxonomy of the engine (spec §7).  `notFound` carries the missing
name and the referencing entity's name, as the Configuration Model's lookups
produce it. -/
inductive Err : Type where
  | notFound (missing : String) (referrer : String)
  | storeErr
  | cloudErr
  | decodeErr
  | resourceErr
deriving DecidableEq, Repr

/-- A release, `config::Release`: maps a release to the name of the
Kubernetes context it uses.  Modelled from the spec: `config.rs` is not in
the provided source; spec §3 gives the attributes (name, `context`). -/
structure Release : Type where
  name : String
  context : String
deriving DecidableEq, Repr

/-- `config::AuthConfig`: polymorphic auth variant.  Currently the single
variant `AwsSso`; the engine's `create_auth` matches `AwsSso { .. }` and
uses none of its fields, so the variant's payload is not modelled. -/
inductive AuthConfig : Type where
  | AwsSso
deriving DecidableEq, Repr

/-- `config::Auth`: a named credential profile. -/
structure Auth : Type where
  name : String
  config : AuthConfig
deriving DecidableEq, Repr

/-- `config::ClusterConfig`: polymorphic cluster variant; the single variant
`Eks` carries the cloud-side cluster name and the region. -/
inductive ClusterConfig : Type where
  | Eks (name : String) (region : String)
deriving DecidableEq, Repr

/-- `config::Cluster`: a named cluster entry. -/
structure Cluster : Type where
  name : String
  config : ClusterConfig
deriving DecidableEq, Repr

/-- `config::Context`: a named binding of an auth name, a cluster name and
an optional namespace. -/
structure Context : Type where
  name : String
  auth : String
  cluster : String
  «namespace» : Option String
deriving DecidableEq, Repr

/-- `config::Config`.  Modelled from the spec: the aggregate root holding
the name-keyed collections of releases, contexts, auths and clusters
(spec §3), with failing lookups (spec §4.1). -/
structure Config : Type where
  releases : List Release
  contexts : List Context
  auths : List Auth
  clusters : List Cluster
deriving DecidableEq, Repr

/-- Modelled from the spec: `find_context(release) -> Context |
NotFound(release.context)` — lookup by name, the error cites the missing
name and the referencing entity (spec §4.1). -/
def Config.find_context (c : Config) (r : Release) : Except Err Context :=
  match c.contexts.find? (fun ctx => ctx.name == r.context) with
  | some ctx => Except.ok ctx
  | none => Except.error (Err.notFound r.context r.name)

/-- Modelled from the spec: `find_auth(context) -> Auth |
NotFound(context.auth)` (spec §4.1). -/
def Config.find_auth (c : Config) (ctx : Context) : Except Err Auth :=
  match c.auths.find? (fun a => a.name == ctx.auth) with
  | some a => Except.ok a
  | none => Except.error (Err.notFound ctx.auth ctx.name)

/-- Modelled from the spec: `find_cluster(context) -> Cluster |
NotFound(context.cluster)` (spec §4.1). -/
def Config.find_cluster (c : Config) (ctx : Context) : Except Err Cluster :=
  match c.clusters.find? (fun cl => cl.name == ctx.cluster) with
  | some cl => Except.ok cl
  | none => Except.error (Err.notFound ctx.cluster ctx.name)

/-- Modelled from the spec: release lookup by name for the public operation
`prepare(release_name)` (spec §4.2); unknown names fail with `NotFound`
citing the supplied name. -/
def Config.find_release (c : Config) (name : String) : Except Err Release :=
  match c.releases.find? (fun r => r.name == name) with
  | some r => Except.ok r
  | none => Except.error (Err.notFound name "release")

/-- What `aws::get_eks_cluster` returns: the live endpoint URL and the
base64-encoded certificate-authority blob (spec §6). -/
structure EksCluster : Type where
  endpoint : String
  cert : String
deriving DecidableEq, Repr

/-- The visible state of the context store.  Modelled from the spec:
`kubeconfig.rs` is interface-only (spec §6); existence checks report
membership, creation primitives insert. -/
structure Kubeconfig : Type where
  contexts : List String
  auths : List String
  clusters : List String
deriving DecidableEq, Repr

/-- One temporary file: its fresh numeric id and its byte content. -/
structure FS : Type where
  files : List (Nat × List Nat)
  next : Nat
deriving DecidableEq, Repr

/-- The path string under which a temp file with the given id is handed to
the store adapter (`NamedTempFile` paths are unique fresh names). -/
def tempName (id : Nat) : String :=
  "/tmp/flightctl-ca-" ++ toString id

/-- Deleting a temp file from the filesystem. -/
def FS.remove (fs : FS) (id : Nat) : FS :=
  ⟨fs.files.filter (fun f => f.1 != id), fs.next⟩

/-- Filesystem well-formedness: every live temp file's id is below the
fresh counter (so the next allocated name is genuinely fresh). -/
def FS.WF (fs : FS) : Prop :=
  ∀ f ∈ fs.files, f.1 < fs.next

/-- Every observable call to an external collaborator. -/
inductive Event : Type where
  | contextExistsQ (name : String)
  | authExistsQ (name : String)
  | clusterExistsQ (name : String)
  | createContextW (name : String) (authName : String) (clusterName : String)
      (ns : Option String)
  | createAuthW (name : String) (args : List String)
  | createClusterW (name : String) (args : List String)
  | cloudQuery (profile : String) (region : String) (clusterName : String)
  | tempCreate (id : Nat)
  | tempWrite (id : Nat) (content : List Nat)
  | tempDelete (id : Nat)
deriving DecidableEq, Repr

/-- Store-write calls: the store adapter's three creation primitives. -/
def Event.isStoreWrite : Event → Bool
  | Event.createContextW _ _ _ _ => true
  | Event.createAuthW _ _ => true
  | Event.createClusterW _ _ => true
  | _ => false

/-- Cloud-provider calls. -/
def Event.isCloudCall : Event → Bool
  | Event.cloudQuery _ _ _ => true
  | _ => false

/-- The store's context-creation primitive in particular. -/
def Event.isCreateContextW : Event → Bool
  | Event.createContextW _ _ _ _ => true
  | _ => false

/-- The event kinds `create_cluster` can emit: the cloud query, temp-file
operations, and the store's cluster-creation call. -/
def Event.fromCreateCluster : Event → Bool
  | Event.cloudQuery _ _ _ => true
  | Event.tempCreate _ => true
  | Event.tempWrite _ _ => true
  | Event.tempDelete _ => true
  | Event.createClusterW _ _ => true
  | _ => false

/-- Outcomes of the fallible external calls a single `prepare` run can make
(each is called at most once per run).  `Except.ok ()` means the call
succeeds; its semantic result then comes from the explicit state. -/
structure Env : Type where
  context_exists_r : Except Err Unit
  auth_exists_r : Except Err Unit
  cluster_exists_r : Except Err Unit
  create_context_r : Except Err Unit
  create_auth_r : Except Err Unit
  create_cluster_r : Except Err Unit
  get_eks_cluster_r : Except Err EksCluster
  base64_decode : String → Except Err (List Nat)
  tempfile_new_r : Except Err Unit
  tempfile_write_r : Except Err Unit
  temppath_close_r : Except Err Unit

/-- The external calls of `create_cluster` up to (and including) the
store's cluster-creation primitive all succeed — the runs that reach the
temp path's explicit `close()`. -/
def cluster_gates_ok (env : Env) : Prop :=
  (∃ eks bytes, env.get_eks_cluster_r = Except.ok eks ∧
    env.base64_decode eks.cert = Except.ok bytes) ∧
  env.tempfile_new_r = Except.ok () ∧
  env.tempfile_write_r = Except.ok () ∧
  env.create_cluster_r = Except.ok ()

/-- Result of running an engine function: the Rust `anyhow::Result<()>`,
the trace of external calls made, and the final store and filesystem. -/
structure RunResult : Type where
  res : Except Err Unit
  trace : List Event
  st : Kubeconfig
  fs : FS

/-- `create_cluster` (context.rs lines 91–122): for the `Eks` variant,
query the cloud provider, base64-decode the certificate, write the decoded
bytes to a fresh named temp file, hand its path to the store's
`create_cluster` with `--embed-certs`/`--server`/`--certificate-authority`,
then close (delete) the temp path.  Dropping the `NamedTempFile` /
`TempPath` on an early error exit deletes the file; a failing `close()`
leaves it in place. -/
def create_cluster (env : Env) (st : Kubeconfig) (fs : FS)
    (cluster : Cluster) (auth : Auth) : RunResult :=
  match cluster.config with
  | ClusterConfig.Eks name region =>
    match env.get_eks_cluster_r with
    | Except.error e => ⟨Except.error e, [Event.cloudQuery auth.name region name], st, fs⟩
    | Except.ok eks_cluster =>
      match env.base64_decode eks_cluster.cert with
      | Except.error e => ⟨Except.error e, [Event.cloudQuery auth.name region name], st, fs⟩
      | Except.ok ca_pem =>
        match env.tempfile_new_r with
        | Except.error e => ⟨Except.error e, [Event.cloudQuery auth.name region name], st, fs⟩
        | Except.ok _ =>
          let id := fs.next
          let fs1 : FS := ⟨(id, []) :: fs.files, fs.next + 1⟩
          match env.tempfile_write_r with
          | Except.error e =>
            ⟨Except.error e,
              [Event.cloudQuery auth.name region name, Event.tempCreate id,
                Event.tempDelete id],
              st, fs1.remove id⟩
          | Except.ok _ =>
            let fs2 : FS := ⟨(id, ca_pem) :: fs.files, fs.next + 1⟩
            let args := ["--embed-certs", "--server", eks_cluster.endpoint,
              "--certificate-authority", tempName id]
            match env.create_cluster_r with
            | Except.error e =>
              ⟨Except.error e,
                [Event.cloudQuery auth.name region name, Event.tempCreate id,
                  Event.tempWrite id ca_pem, Event.createClusterW cluster.name args,
                  Event.tempDelete id],
                st, fs2.remove id⟩
            | Except.ok _ =>
              let st1 : Kubeconfig := { st with clusters := cluster.name :: st.clusters }
              match env.temppath_close_r with
              | Except.error e =>
                ⟨Except.error e,
                  [Event.cloudQuery auth.name region name, Event.tempCreate id,
                    Event.tempWrite id ca_pem, Event.createClusterW cluster.name args],
                  st1, fs2⟩
              | Except.ok _ =>
                ⟨Except.ok (),
                  [Event.cloudQuery auth.name region name, Event.tempCreate id,
                    Event.tempWrite id ca_pem, Event.createClusterW cluster.name args,
                    Event.tempDelete id],
                  st1, fs2.remove id⟩

/-- `create_auth` (context.rs lines 43–77): for `AwsSso` auth × `Eks`
cluster, register an auth entry named after the context, with the exact
exec-credential argument list of the source. -/
def create_auth (env : Env) (st : Kubeconfig) (fs : FS)
    (context : Context) (auth : Auth) (cluster : Cluster) : RunResult :=
  match auth.config with
  | AuthConfig.AwsSso =>
    match cluster.config with
    | ClusterConfig.Eks name region =>
      let args := ["--exec-api-version", "client.authentication.k8s.io/v1alpha1",
        "--exec-arg", "--region", "--exec-arg", region,
        "--exec-arg", "eks", "--exec-arg", "get-token",
        "--exec-arg", "--cluster-name", "--exec-arg", name,
        "--exec-command", "aws",
        "--exec-env", "AWS_PROFILE=" ++ auth.name]
      match env.create_auth_r with
      | Except.error e =>
        ⟨Except.error e, [Event.createAuthW context.name args], st, fs⟩
      | Except.ok _ =>
        ⟨Except.ok (), [Event.createAuthW context.name args],
          { st with auths := context.name :: st.auths }, fs⟩

/-- `ensure_auth` (context.rs lines 31–41): check existence of an auth
entry named `context.name`; if absent, resolve Auth then Cluster from the
configuration and create the auth entry. -/
def ensure_auth (env : Env) (st : Kubeconfig) (fs : FS)
    (context : Context) (config : Config) : RunResult :=
  match env.auth_exists_r with
  | Except.error e => ⟨Except.error e, [Event.authExistsQ context.name], st, fs⟩
  | Except.ok _ =>
    if st.auths.contains context.name then
      ⟨Except.ok (), [Event.authExistsQ context.name], st, fs⟩
    else
      match config.find_auth context with
      | Except.error e => ⟨Except.error e, [Event.authExistsQ context.name], st, fs⟩
      | Except.ok auth =>
        match config.find_cluster context with
        | Except.error e => ⟨Except.error e, [Event.authExistsQ context.name], st, fs⟩
        | Except.ok cluster =>
          let r := create_auth env st fs context auth cluster
          ⟨r.res, Event.authExistsQ context.name :: r.trace, r.st, r.fs⟩

/-- `ensure_cluster` (context.rs lines 79–89): check existence of a cluster
entry named `context.cluster`; if absent, resolve Cluster then Auth from
the configuration and create the cluster entry. -/
def ensure_cluster (env : Env) (st : Kubeconfig) (fs : FS)
    (context : Context) (config : Config) : RunResult :=
  match env.cluster_exists_r with
  | Except.error e => ⟨Except.error e, [Event.clusterExistsQ context.cluster], st, fs⟩
  | Except.ok _ =>
    if st.clusters.contains context.cluster then
      ⟨Except.ok (), [Event.clusterExistsQ context.cluster], st, fs⟩
    else
      match config.find_cluster context with
      | Except.error e => ⟨Except.error e, [Event.clusterExistsQ context.cluster], st, fs⟩
      | Except.ok cluster =>
        match config.find_auth context with
        | Except.error e => ⟨Except.error e, [Event.clusterExistsQ context.cluster], st, fs⟩
        | Except.ok auth =>
          let r := create_cluster env st fs cluster auth
          ⟨r.res, Event.clusterExistsQ context.cluster :: r.trace, r.st, r.fs⟩

/-- `create_context` (context.rs lines 19–29): ensure auth, ensure cluster,
then call the store's context-creation primitive with the context's name,
`context.auth`, `context.cluster` and the optional namespace — note the
source passes `context.auth`, not `context.name`, as the auth binding. -/
def create_context (env : Env) (st : Kubeconfig) (fs : FS)
    (context : Context) (config : Config) : RunResult :=
  let r1 := ensure_auth env st fs context config
  match r1.res with
  | Except.error e => ⟨Except.error e, r1.trace, r1.st, r1.fs⟩
  | Except.ok _ =>
    let r2 := ensure_cluster env r1.st r1.fs context config
    match r2.res with
    | Except.error e => ⟨Except.error e, r1.trace ++ r2.trace, r2.st, r2.fs⟩
    | Except.ok _ =>
      let ev := Event.createContextW context.name context.auth context.cluster
        context.«namespace»
      match env.create_context_r with
      | Except.error e =>
        ⟨Except.error e, r1.trace ++ r2.trace ++ [ev], r2.st, r2.fs⟩
      | Except.ok _ =>
        ⟨Except.ok (), r1.trace ++ r2.trace ++ [ev],
          { r2.st with contexts := context.name :: r2.st.contexts }, r2.fs⟩

/-- `prepare` (context.rs lines 8–17): check whether the context named
`release.context` already exists; if so succeed immediately, otherwise
resolve the context from the configuration and create it. -/
def prepare (env : Env) (st : Kubeconfig) (fs : FS)
    (config : Config) (release : Release) : RunResult :=
  match env.context_exists_r with
  | Except.error e => ⟨Except.error e, [Event.contextExistsQ release.context], st, fs⟩
  | Except.ok _ =>
    if st.contexts.contains release.context then
      ⟨Except.ok (), [Event.contextExistsQ release.context], st, fs⟩
    else
      match config.find_context release with
      | Except.error e => ⟨Except.error e, [Event.contextExistsQ release.context], st, fs⟩
      | Except.ok context =>
        let r := create_context env st fs context config
        ⟨r.res, Event.contextExistsQ release.context :: r.trace, r.st, r.fs⟩

/-- Modelled from the spec: the public operation `prepare(release_name)`
(spec §4.2) — the caller resolves the release by name in the Configuration
Model before the engine runs; an unknown name fails with `NotFound` before
any store interaction. -/
def prepare_by_name (env : Env) (st : Kubeconfig) (fs : FS)
    (config : Config) (name : String) : RunResult :=
  match config.find_release name with
  | Except.error e => ⟨Except.error e, [], st, fs⟩
  | Except.ok release => prepare env st fs config release

/-! ### Concrete instances (the spec's §8 scenario, and fixtures) -/

/-- An environment where every external call succeeds; the cloud returns a
fixed endpoint and the base64-encoded blob `"Q0E="` (decoding to `CA`). -/
def envOk : Env where
  context_exists_r := Except.ok ()
  auth_exists_r := Except.ok ()
  cluster_exists_r := Except.ok ()
  create_context_r := Except.ok ()
  create_auth_r := Except.ok ()
  create_cluster_r := Except.ok ()
  get_eks_cluster_r := Except.ok ⟨"https://eks.example", "Q0E="⟩
  base64_decode := fun s =>
    if s == "Q0E=" then Except.ok [67, 65] else Except.error Err.decodeErr
  tempfile_new_r := Except.ok ()
  tempfile_write_r := Except.ok ()
  temppath_close_r := Except.ok ()

/-- The empty context store. -/
def st0 : Kubeconfig := ⟨[], [], []⟩

/-- The empty temp-file namespace. -/
def fs0 : FS := ⟨[], 0⟩

/-- The configuration of the spec's §8 scenario: release `prod` → context
`prod-ctx` (auth `admin`, cluster `prod-eks`, namespace `default`); auth
`admin` = AwsSso; cluster `prod-eks` = Eks(`prod`, `us-east-1`). -/
def cfg8 : Config :=
  ⟨[⟨"prod", "prod-ctx"⟩],
   [⟨"prod-ctx", "admin", "prod-eks", some "default"⟩],
   [⟨"admin", AuthConfig.AwsSso⟩],
   [⟨"prod-eks", ClusterConfig.Eks "prod" "us-east-1"⟩]⟩

/-- The §8 scenario's release. -/
def rel8 : Release := ⟨"prod", "prod-ctx"⟩

/-- The §8 scenario's context. -/
def ctx8 : Context := ⟨"prod-ctx", "admin", "prod-eks", some "default"⟩

/-- A configuration whose context `c1` references the auth profile name
`missing-auth`, which resolves to nothing (no auth profiles at all). -/
def cfgDangling : Config :=
  ⟨[⟨"r1", "c1"⟩],
   [⟨"c1", "missing-auth", "clX", none⟩],
   [],
   [⟨"clX", ClusterConfig.Eks "x" "rX"⟩]⟩

/-- A store already holding the auth entry `c1` (the context's name) and
the cluster entry `clX`, but not the context `c1`. -/
def stBoth : Kubeconfig := ⟨[], ["c1"], ["clX"]⟩

/-- The release of the dangling-auth configuration. -/
def relD : Release := ⟨"r1", "c1"⟩

/-- The context of the dangling-auth configuration. -/
def ctxD : Context := ⟨"c1", "missing-auth", "clX", none⟩

/-! ### Helper lemmas -/

/-- Filtering out an id larger than every id in the list changes nothing. -/
theorem filter_fresh_id (l : List (Nat × List Nat)) (n : Nat)
    (h : ∀ f ∈ l, f.1 < n) : l.filter (fun f => f.1 != n) = l := by
  refine List.filter_eq_self.mpr (fun a ha => ?_)
  have := h a ha
  simp only [bne_iff_ne, ne_eq, decide_eq_true_eq]
  omega

/-- A successful `ensure_auth` leaves an auth entry named `context.name` in
the store. -/
theorem ensure_auth_post (env : Env) (st : Kubeconfig) (fs : FS)
    (context : Context) (config : Config)
    (h : (ensure_auth env st fs context config).res = Except.ok ()) :
    context.name ∈ (ensure_auth env st fs context config).st.auths := by
  cases hg : env.auth_exists_r with
  | error e => simp [ensure_auth, hg] at h
  | ok u =>
    by_cases hm : context.name ∈ st.auths
    · simp [ensure_auth, hg, hm]
    · cases hfa : config.find_auth context with
      | error e => simp [ensure_auth, hg, hm, hfa] at h
      | ok auth =>
        cases hfc : config.find_cluster context with
        | error e => simp [ensure_auth, hg, hm, hfa, hfc] at h
        | ok cluster =>
          cases auth with
          | mk an ac =>
            cases ac
            cases cluster with
            | mk cn cc =>
              cases cc with
              | Eks n r =>
                cases hc : env.create_auth_r with
                | error e =>
                  simp [ensure_auth, create_auth, hg, hm, hfa, hfc, hc] at h
                | ok v =>
                  simp [ensure_auth, create_auth, hg, hm, hfa, hfc, hc]

/-- `ensure_cluster` never touches the store's auth entries. -/
theorem ensure_cluster_auths (env : Env) (st : Kubeconfig) (fs : FS)
    (context : Context) (config : Config) :
    (ensure_cluster env st fs context config).st.auths = st.auths := by
  cases hg : env.cluster_exists_r with
  | error e => simp [ensure_cluster, hg]
  | ok u =>
    by_cases hm : context.cluster ∈ st.clusters
    · simp [ensure_cluster, hg, hm]
    · cases hfc : config.find_cluster context with
      | error e => simp [ensure_cluster, hg, hm, hfc]
      | ok cluster =>
        cases hfa : config.find_auth context with
        | error e => simp [ensure_cluster, hg, hm, hfc, hfa]
        | ok auth =>
          cases cluster with
          | mk cn cc =>
            cases cc with
            | Eks n r =>
              cases h1 : env.get_eks_cluster_r with
              | error e => simp [ensure_cluster, create_cluster, hg, hm, hfc, hfa, h1]
              | ok eks =>
                cases h2 : env.base64_decode eks.cert with
                | error e =>
                  simp [ensure_cluster, create_cluster, hg, hm, hfc, hfa, h1, h2]
                | ok ca =>
                  cases h3 : env.tempfile_new_r with
                  | error e =>
                    simp [ensure_cluster, create_cluster, hg, hm, hfc, hfa, h1, h2, h3]
                  | ok u3 =>
                    cases h4 : env.tempfile_write_r with
                    | error e =>
                      simp [ensure_cluster, create_cluster, hg, hm, hfc, hfa, h1, h2, h3, h4]
                    | ok u4 =>
                      cases h5 : env.create_cluster_r with
                      | error e =>
                        simp [ensure_cluster, create_cluster, hg, hm, hfc, hfa,
                          h1, h2, h3, h4, h5]
                      | ok u5 =>
                        cases h6 : env.temppath_close_r with
                        | error e =>
                          simp [ensure_cluster, create_cluster, hg, hm, hfc, hfa,
                            h1, h2, h3, h4, h5, h6]
                        | ok u6 =>
                          simp [ensure_cluster, create_cluster, hg, hm, hfc, hfa,
                            h1, h2, h3, h4, h5, h6]

/-- The Configuration Model's cluster lookup returns a cluster whose name
is the context's cluster reference. -/
theorem find_cluster_name (config : Config) (context : Context) (cluster : Cluster)
    (hfc : config.find_cluster context = Except.ok cluster) :
    cluster.name = context.cluster := by
  unfold Config.find_cluster at hfc
  cases hfind : config.clusters.find? (fun cl => cl.name == context.cluster) with
  | none => rw [hfind] at hfc; exact absurd hfc (by simp)
  | some cl =>
    rw [hfind] at hfc
    have hcl : cl = cluster := by simpa using hfc
    have hp := List.find?_some hfind
    rw [hcl] at hp
    simpa using hp

/-- A successful `ensure_cluster` leaves a cluster entry named
`context.cluster` in the store. -/
theorem ensure_cluster_post (env : Env) (st : Kubeconfig) (fs : FS)
    (context : Context) (config : Config)
    (h : (ensure_cluster env st fs context config).res = Except.ok ()) :
    context.cluster ∈ (ensure_cluster env st fs context config).st.clusters := by
  cases hg : env.cluster_exists_r with
  | error e => simp [ensure_cluster, hg] at h
  | ok u =>
    by_cases hm : context.cluster ∈ st.clusters
    · simp [ensure_cluster, hg, hm]
    · cases hfc : config.find_cluster context with
      | error e => simp [ensure_cluster, hg, hm, hfc] at h
      | ok cluster =>
        have hname : cluster.name = context.cluster := find_cluster_name config context cluster hfc
        cases hfa : config.find_auth context with
        | error e => simp [ensure_cluster, hg, hm, hfc, hfa] at h
        | ok auth =>
          obtain ⟨cn, cc⟩ := cluster
          cases cc with
          | Eks n r =>
            cases h1 : env.get_eks_cluster_r with
            | error e => simp [ensure_cluster, create_cluster, hg, hm, hfc, hfa, h1] at h
            | ok eks =>
              cases h2 : env.base64_decode eks.cert with
              | error e =>
                simp [ensure_cluster, create_cluster, hg, hm, hfc, hfa, h1, h2] at h
              | ok ca =>
                cases h3 : env.tempfile_new_r with
                | error e =>
                  simp [ensure_cluster, create_cluster, hg, hm, hfc, hfa, h1, h2, h3] at h
                | ok u3 =>
                  cases h4 : env.tempfile_write_r with
                  | error e =>
                    simp [ensure_cluster, create_cluster, hg, hm, hfc, hfa,
                      h1, h2, h3, h4] at h
                  | ok u4 =>
                    cases h5 : env.create_cluster_r with
                    | error e =>
                      simp [ensure_cluster, create_cluster, hg, hm, hfc, hfa,
                        h1, h2, h3, h4, h5] at h
                    | ok u5 =>
                      cases h6 : env.temppath_close_r with
                      | error e =>
                        simp [ensure_cluster, create_cluster, hg, hm, hfc, hfa,
                          h1, h2, h3, h4, h5, h6] at h
                      | ok u6 =>
                        simp only at hname
                        simp [ensure_cluster, create_cluster, hg, hm, hfc, hfa,
                          h1, h2, h3, h4, h5, h6, hname]

/-- `create_auth` emits exactly one event: the store's auth-creation call,
keyed by the context's name. -/
theorem create_auth_trace (env : Env) (st : Kubeconfig) (fs : FS)
    (context : Context) (auth : Auth) (cluster : Cluster) :
    ∃ args, (create_auth env st fs context auth cluster).trace =
      [Event.createAuthW context.name args] := by
  obtain ⟨an, ac⟩ := auth
  cases ac
  obtain ⟨cn, cc⟩ := cluster
  cases cc with
  | Eks n r =>
    refine ⟨["--exec-api-version", "client.authentication.k8s.io/v1alpha1",
      "--exec-arg", "--region", "--exec-arg", r,
      "--exec-arg", "eks", "--exec-arg", "get-token",
      "--exec-arg", "--cluster-name", "--exec-arg", n,
      "--exec-command", "aws", "--exec-env", "AWS_PROFILE=" ++ an], ?_⟩
    cases hc : env.create_auth_r with
    | error e => simp [create_auth, hc]
    | ok u => simp [create_auth, hc]

/-- Every event `create_cluster` emits is a cloud query, a temp-file
operation, or the store's cluster-creation call. -/
theorem create_cluster_trace (env : Env) (st : Kubeconfig) (fs : FS)
    (cluster : Cluster) (auth : Auth) :
    ∀ e ∈ (create_cluster env st fs cluster auth).trace,
      e.fromCreateCluster = true := by
  intro e he
  obtain ⟨cn, cc⟩ := cluster
  cases cc with
  | Eks n r =>
    cases h1 : env.get_eks_cluster_r with
    | error er =>
      simp [create_cluster, h1] at he
      simp [he, Event.fromCreateCluster]
    | ok eks =>
      cases h2 : env.base64_decode eks.cert with
      | error er =>
        simp [create_cluster, h1, h2] at he
        simp [he, Event.fromCreateCluster]
      | ok ca =>
        cases h3 : env.tempfile_new_r with
        | error er =>
          simp [create_cluster, h1, h2, h3] at he
          simp [he, Event.fromCreateCluster]
        | ok u3 =>
          cases h4 : env.tempfile_write_r with
          | error er =>
            simp [create_cluster, h1, h2, h3, h4] at he
            rcases he with he | he | he <;> simp [he, Event.fromCreateCluster]
          | ok u4 =>
            cases h5 : env.create_cluster_r with
            | error er =>
              simp [create_cluster, h1, h2, h3, h4, h5] at he
              rcases he with he | he | he | he | he <;> simp [he, Event.fromCreateCluster]
            | ok u5 =>
              cases h6 : env.temppath_close_r with
              | error er =>
                simp [create_cluster, h1, h2, h3, h4, h5, h6] at he
                rcases he with he | he | he | he <;> simp [he, Event.fromCreateCluster]
              | ok u6 =>
                simp [create_cluster, h1, h2, h3, h4, h5, h6] at he
                rcases he with he | he | he | he | he <;> simp [he, Event.fromCreateCluster]

/-- Every event `ensure_auth` emits is the auth-existence check keyed by
the context's name, or the auth-creation call keyed by the context's name. -/
theorem ensure_auth_trace (env : Env) (st : Kubeconfig) (fs : FS)
    (context : Context) (config : Config) :
    ∀ e ∈ (ensure_auth env st fs context config).trace,
      e = Event.authExistsQ context.name ∨
      ∃ args, e = Event.createAuthW context.name args := by
  intro e he
  cases hg : env.auth_exists_r with
  | error er =>
    simp [ensure_auth, hg] at he
    exact Or.inl he
  | ok u =>
    by_cases hm : context.name ∈ st.auths
    · simp [ensure_auth, hg, hm] at he
      exact Or.inl he
    · cases hfa : config.find_auth context with
      | error er =>
        simp [ensure_auth, hg, hm, hfa] at he
        exact Or.inl he
      | ok auth =>
        cases hfc : config.find_cluster context with
        | error er =>
          simp [ensure_auth, hg, hm, hfa, hfc] at he
          exact Or.inl he
        | ok cluster =>
          obtain ⟨args, ha⟩ := create_auth_trace env st fs context auth cluster
          simp [ensure_auth, hg, hm, hfa, hfc, ha] at he
          rcases he with he | he
          · exact Or.inl he
          · exact Or.inr ⟨args, he⟩

/-- Every event `ensure_cluster` emits is the cluster-existence check keyed
by the context's cluster reference, or an event of `create_cluster`. -/
theorem ensure_cluster_trace (env : Env) (st : Kubeconfig) (fs : FS)
    (context : Context) (config : Config) :
    ∀ e ∈ (ensure_cluster env st fs context config).trace,
      e = Event.clusterExistsQ context.cluster ∨
      e.fromCreateCluster = true := by
  intro e he
  cases hg : env.cluster_exists_r with
  | error er =>
    simp [ensure_cluster, hg] at he
    exact Or.inl he
  | ok u =>
    by_cases hm : context.cluster ∈ st.clusters
    · simp [ensure_cluster, hg, hm] at he
      exact Or.inl he
    · cases hfc : config.find_cluster context with
      | error er =>
        simp [ensure_cluster, hg, hm, hfc] at he
        exact Or.inl he
      | ok cluster =>
        cases hfa : config.find_auth context with
        | error er =>
          simp [ensure_cluster, hg, hm, hfc, hfa] at he
          exact Or.inl he
        | ok auth =>
          simp [ensure_cluster, hg, hm, hfc, hfa] at he
          rcases he with he | he
          · exact Or.inl he
          · exact Or.inr (create_cluster_trace env st fs cluster auth e he)

/-- Every event `create_context` emits is one of: the auth-existence check
or auth creation keyed by `context.name`, the cluster-existence check keyed
by `context.cluster`, an event of `create_cluster`, or the final
context-creation call. -/
theorem create_context_trace (env : Env) (st : Kubeconfig) (fs : FS)
    (context : Context) (config : Config) :
    ∀ e ∈ (create_context env st fs context config).trace,
      e = Event.authExistsQ context.name ∨
      (∃ args, e = Event.createAuthW context.name args) ∨
      e = Event.clusterExistsQ context.cluster ∨
      e.fromCreateCluster = true ∨
      e = Event.createContextW context.name context.auth context.cluster
            context.«namespace» := by
  intro e he
  cases hres1 : (ensure_auth env st fs context config).res with
  | error er =>
    simp only [create_context, hres1] at he
    rcases ensure_auth_trace env st fs context config e he with h | h
    · exact Or.inl h
    · exact Or.inr (Or.inl h)
  | ok u =>
    cases hres2 : (ensure_cluster env (ensure_auth env st fs context config).st
        (ensure_auth env st fs context config).fs context config).res with
    | error er =>
      simp only [create_context, hres1, hres2, List.mem_append] at he
      rcases he with he | he
      · rcases ensure_auth_trace env st fs context config e he with h | h
        · exact Or.inl h
        · exact Or.inr (Or.inl h)
      · rcases ensure_cluster_trace env _ _ context config e he with h | h
        · exact Or.inr (Or.inr (Or.inl h))
        · exact Or.inr (Or.inr (Or.inr (Or.inl h)))
    | ok u2 =>
      cases hg : env.create_context_r with
      | error er =>
        simp only [create_context, hres1, hres2, hg, List.mem_append,
          List.mem_singleton] at he
        rcases he with (he | he) | he
        · rcases ensure_auth_trace env st fs context config e he with h | h
          · exact Or.inl h
          · exact Or.inr (Or.inl h)
        · rcases ensure_cluster_trace env _ _ context config e he with h | h
          · exact Or.inr (Or.inr (Or.inl h))
          · exact Or.inr (Or.inr (Or.inr (Or.inl h)))
        · exact Or.inr (Or.inr (Or.inr (Or.inr he)))
      | ok u3 =>
        simp only [create_context, hres1, hres2, hg, List.mem_append,
          List.mem_singleton] at he
        rcases he with (he | he) | he
        · rcases ensure_auth_trace env st fs context config e he with h | h
          · exact Or.inl h
          · exact Or.inr (Or.inl h)
        · rcases ensure_cluster_trace env _ _ context config e he with h | h
          · exact Or.inr (Or.inr (Or.inl h))
          · exact Or.inr (Or.inr (Or.inr (Or.inl h)))
        · exact Or.inr (Or.inr (Or.inr (Or.inr he)))

/-! ### Claim theorems -/

/-- C1: Evaluating `prepare` on the spec's §8 scenario (empty store, all
external calls succeeding).  The run creates the auth entry under the
context's name `prod-ctx` (the `create_auth` call), but the final
`create_context` call binds the created context to the auth name `admin`
(`context.auth`, the auth profile's name) — not to `prod-ctx`
(`context.name`) as the claim and spec state.  The full trace exhibits the
divergence. -/
theorem C1_scenario_context_binding :
    (prepare envOk st0 fs0 cfg8 rel8).res = Except.ok () ∧
    (prepare envOk st0 fs0 cfg8 rel8).trace =
      [Event.contextExistsQ "prod-ctx",
       Event.authExistsQ "prod-ctx",
       Event.createAuthW "prod-ctx"
         ["--exec-api-version", "client.authentication.k8s.io/v1alpha1",
          "--exec-arg", "--region", "--exec-arg", "us-east-1",
          "--exec-arg", "eks", "--exec-arg", "get-token",
          "--exec-arg", "--cluster-name", "--exec-arg", "prod",
          "--exec-command", "aws", "--exec-env", "AWS_PROFILE=admin"],
       Event.clusterExistsQ "prod-eks",
       Event.cloudQuery "admin" "us-east-1" "prod",
       Event.tempCreate 0,
       Event.tempWrite 0 [67, 65],
       Event.createClusterW "prod-eks"
         ["--embed-certs", "--server", "https://eks.example",
          "--certificate-authority", "/tmp/flightctl-ca-0"],
       Event.tempDelete 0,
       Event.createContextW "prod-ctx" "admin" "prod-eks" (some "default")] ∧
    (prepare envOk st0 fs0 cfg8 rel8).st.auths = ["prod-ctx"] := by
  exact ⟨rfl, rfl, rfl⟩

/-- C2: For every configuration and release whose context already exists in
the store (and whose existence check succeeds), `prepare` returns `Ok`
immediately, its trace contains no store-write call and no cloud-provider
call, and the store and filesystem are untouched. -/
theorem C2_prepare_idempotent (env : Env) (st : Kubeconfig) (fs : FS)
    (config : Config) (release : Release)
    (hg : env.context_exists_r = Except.ok ())
    (hmem : release.context ∈ st.contexts) :
    (prepare env st fs config release).res = Except.ok () ∧
    (∀ e ∈ (prepare env st fs config release).trace,
      e.isStoreWrite = false ∧ e.isCloudCall = false) ∧
    (prepare env st fs config release).st = st ∧
    (prepare env st fs config release).fs = fs := by
  refine ⟨?_, ?_, ?_, ?_⟩ <;>
    simp [prepare, hg, hmem, Event.isStoreWrite, Event.isCloudCall]

/-- C2 witness: a store already holding context `prod-ctx`. -/
theorem C2_witness :
    (envOk.context_exists_r = Except.ok () ∧
      rel8.context ∈ (⟨["prod-ctx"], [], []⟩ : Kubeconfig).contexts) ∧
    ((prepare envOk ⟨["prod-ctx"], [], []⟩ fs0 cfg8 rel8).res = Except.ok () ∧
     (∀ e ∈ (prepare envOk ⟨["prod-ctx"], [], []⟩ fs0 cfg8 rel8).trace,
       e.isStoreWrite = false ∧ e.isCloudCall = false) ∧
     (prepare envOk ⟨["prod-ctx"], [], []⟩ fs0 cfg8 rel8).st = ⟨["prod-ctx"], [], []⟩ ∧
     (prepare envOk ⟨["prod-ctx"], [], []⟩ fs0 cfg8 rel8).fs = fs0) :=
  ⟨⟨rfl, by simp [rel8]⟩,
    C2_prepare_idempotent envOk ⟨["prod-ctx"], [], []⟩ fs0 cfg8 rel8 rfl (by simp [rel8])⟩

/-- C6: For the AwsSso auth × Eks cluster combination, `create_auth`
registers an auth entry named `context.name` whose argument list is exactly
the exec-credential configuration of the source: the exec API version
`client.authentication.k8s.io/v1alpha1`, exec args `--region <region> eks
get-token --cluster-name <cloud cluster name>` in that order, the exec
command `aws`, and the environment override `AWS_PROFILE=<auth.name>`; on
store success the auth entry is registered under `context.name`. -/
theorem C6_create_auth_exec_args (env : Env) (st : Kubeconfig) (fs : FS)
    (context : Context) (auth : Auth) (cluster : Cluster) (cn rg : String)
    (ha : auth.config = AuthConfig.AwsSso)
    (hc : cluster.config = ClusterConfig.Eks cn rg) :
    (create_auth env st fs context auth cluster).trace =
      [Event.createAuthW context.name
        ["--exec-api-version", "client.authentication.k8s.io/v1alpha1",
         "--exec-arg", "--region", "--exec-arg", rg,
         "--exec-arg", "eks", "--exec-arg", "get-token",
         "--exec-arg", "--cluster-name", "--exec-arg", cn,
         "--exec-command", "aws",
         "--exec-env", "AWS_PROFILE=" ++ auth.name]] ∧
    (env.create_auth_r = Except.ok () →
      (create_auth env st fs context auth cluster).st =
        { st with auths := context.name :: st.auths }) := by
  obtain ⟨an, ac⟩ := auth
  cases ac
  obtain ⟨cnm, cc⟩ := cluster
  cases cc with
  | Eks n r =>
    simp only [Cluster.config] at hc
    injection hc with h1 h2
    subst h1
    subst h2
    constructor
    · cases hg : env.create_auth_r with
      | error e => simp [create_auth, hg]
      | ok u => simp [create_auth, hg]
    · intro hok
      simp [create_auth, hok]

/-- C6 witness: the §8 scenario's auth `admin` and cluster `prod-eks`. -/
theorem C6_witness :
    ((⟨"admin", AuthConfig.AwsSso⟩ : Auth).config = AuthConfig.AwsSso ∧
     (⟨"prod-eks", ClusterConfig.Eks "prod" "us-east-1"⟩ : Cluster).config =
       ClusterConfig.Eks "prod" "us-east-1") ∧
    ((create_auth envOk st0 fs0 ctx8 ⟨"admin", AuthConfig.AwsSso⟩
        ⟨"prod-eks", ClusterConfig.Eks "prod" "us-east-1"⟩).trace =
      [Event.createAuthW ctx8.name
        ["--exec-api-version", "client.authentication.k8s.io/v1alpha1",
         "--exec-arg", "--region", "--exec-arg", "us-east-1",
         "--exec-arg", "eks", "--exec-arg", "get-token",
         "--exec-arg", "--cluster-name", "--exec-arg", "prod",
         "--exec-command", "aws",
         "--exec-env", "AWS_PROFILE=" ++ (⟨"admin", AuthConfig.AwsSso⟩ : Auth).name]] ∧
     (envOk.create_auth_r = Except.ok () →
      (create_auth envOk st0 fs0 ctx8 ⟨"admin", AuthConfig.AwsSso⟩
        ⟨"prod-eks", ClusterConfig.Eks "prod" "us-east-1"⟩).st =
        { st0 with auths := ctx8.name :: st0.auths })) :=
  ⟨⟨rfl, rfl⟩,
    C6_create_auth_exec_args envOk st0 fs0 ctx8 ⟨"admin", AuthConfig.AwsSso⟩
      ⟨"prod-eks", ClusterConfig.Eks "prod" "us-east-1"⟩ "prod" "us-east-1" rfl rfl⟩

/-- C4: Whenever `create_context` invokes the store's context-creation
primitive (a `createContextW` event appears in its trace), both
`ensure_auth` and `ensure_cluster` have completed successfully, and, at
that moment (the store state handed to the creation call), an auth entry
named `context.name` and a cluster entry named `context.cluster` exist. -/
theorem C4_context_created_last (env : Env) (st : Kubeconfig) (fs : FS)
    (context : Context) (config : Config) (n a c : String) (ns : Option String)
    (hmem : Event.createContextW n a c ns ∈
      (create_context env st fs context config).trace) :
    (ensure_auth env st fs context config).res = Except.ok () ∧
    (ensure_cluster env (ensure_auth env st fs context config).st
      (ensure_auth env st fs context config).fs context config).res = Except.ok () ∧
    context.name ∈ (ensure_cluster env (ensure_auth env st fs context config).st
      (ensure_auth env st fs context config).fs context config).st.auths ∧
    context.cluster ∈ (ensure_cluster env (ensure_auth env st fs context config).st
      (ensure_auth env st fs context config).fs context config).st.clusters := by
  cases hres1 : (ensure_auth env st fs context config).res with
  | error e =>
    exfalso
    have hmem' := hmem
    simp only [create_context, hres1] at hmem'
    rcases ensure_auth_trace env st fs context config _ hmem' with h | ⟨args, h⟩ <;>
      simp at h
  | ok u =>
    obtain ⟨⟩ := u
    cases hres2 : (ensure_cluster env (ensure_auth env st fs context config).st
        (ensure_auth env st fs context config).fs context config).res with
    | error e =>
      exfalso
      have hmem' := hmem
      simp only [create_context, hres1, hres2, List.mem_append] at hmem'
      rcases hmem' with hmem' | hmem'
      · rcases ensure_auth_trace env st fs context config _ hmem' with h | ⟨args, h⟩ <;>
          simp at h
      · rcases ensure_cluster_trace env _ _ context config _ hmem' with h | h
        · simp at h
        · simp [Event.fromCreateCluster] at h
    | ok u2 =>
      obtain ⟨⟩ := u2
      refine ⟨rfl, rfl, ?_, ?_⟩
      · rw [ensure_cluster_auths]
        exact ensure_auth_post env st fs context config hres1
      · exact ensure_cluster_post env _ _ context config hres2

/-- C4 witness: the §8 scenario run contains the context-creation event. -/
theorem C4_witness :
    (Event.createContextW "prod-ctx" "admin" "prod-eks" (some "default") ∈
      (create_context envOk st0 fs0 ctx8 cfg8).trace) ∧
    ((ensure_auth envOk st0 fs0 ctx8 cfg8).res = Except.ok () ∧
     (ensure_cluster envOk (ensure_auth envOk st0 fs0 ctx8 cfg8).st
       (ensure_auth envOk st0 fs0 ctx8 cfg8).fs ctx8 cfg8).res = Except.ok () ∧
     ctx8.name ∈ (ensure_cluster envOk (ensure_auth envOk st0 fs0 ctx8 cfg8).st
       (ensure_auth envOk st0 fs0 ctx8 cfg8).fs ctx8 cfg8).st.auths ∧
     ctx8.cluster ∈ (ensure_cluster envOk (ensure_auth envOk st0 fs0 ctx8 cfg8).st
       (ensure_auth envOk st0 fs0 ctx8 cfg8).fs ctx8 cfg8).st.clusters) :=
  ⟨by decide,
    C4_context_created_last envOk st0 fs0 ctx8 cfg8 "prod-ctx" "admin" "prod-eks"
      (some "default") (by decide)⟩

/-- C5: For the EKS variant, `create_cluster` queries the cloud provider
with the auth profile's name, the region and the cloud cluster name,
base64-decodes the returned certificate, writes the decoded bytes to a
fresh uniquely named temporary file, and calls the store's cluster-creation
primitive with the cluster's name and exactly `--embed-certs`, `--server
<endpoint>`, `--certificate-authority <temp path>`. -/
theorem C5_create_cluster_eks (env : Env) (st : Kubeconfig) (fs : FS)
    (cluster : Cluster) (auth : Auth) (cn rg : String)
    (eks : EksCluster) (bytes : List Nat)
    (hc : cluster.config = ClusterConfig.Eks cn rg)
    (h1 : env.get_eks_cluster_r = Except.ok eks)
    (h2 : env.base64_decode eks.cert = Except.ok bytes)
    (h3 : env.tempfile_new_r = Except.ok ())
    (h4 : env.tempfile_write_r = Except.ok ())
    (h5 : env.create_cluster_r = Except.ok ())
    (h6 : env.temppath_close_r = Except.ok ())
    (hwf : fs.WF) :
    (create_cluster env st fs cluster auth).res = Except.ok () ∧
    (create_cluster env st fs cluster auth).trace =
      [Event.cloudQuery auth.name rg cn,
       Event.tempCreate fs.next,
       Event.tempWrite fs.next bytes,
       Event.createClusterW cluster.name
         ["--embed-certs", "--server", eks.endpoint,
          "--certificate-authority", tempName fs.next],
       Event.tempDelete fs.next] ∧
    fs.next ∉ fs.files.map Prod.fst ∧
    (create_cluster env st fs cluster auth).st =
      { st with clusters := cluster.name :: st.clusters } := by
  obtain ⟨cnm, cc⟩ := cluster
  cases cc with
  | Eks n r =>
    simp only [Cluster.config] at hc
    injection hc with hh1 hh2
    subst hh1
    subst hh2
    refine ⟨?_, ?_, ?_, ?_⟩
    · simp [create_cluster, h1, h2, h3, h4, h5, h6]
    · simp [create_cluster, h1, h2, h3, h4, h5, h6]
    · intro hcon
      obtain ⟨f, hf, hfe⟩ := List.mem_map.mp hcon
      have hlt := hwf f hf
      rw [hfe] at hlt
      exact lt_irrefl _ hlt
    · simp [create_cluster, h1, h2, h3, h4, h5, h6]

/-- C5 witness: the §8 scenario's cluster `prod-eks` under profile `admin`,
resolving cluster `prod` in `us-east-1`. -/
theorem C5_witness :
    ((⟨"prod-eks", ClusterConfig.Eks "prod" "us-east-1"⟩ : Cluster).config =
       ClusterConfig.Eks "prod" "us-east-1" ∧
     envOk.get_eks_cluster_r = Except.ok ⟨"https://eks.example", "Q0E="⟩ ∧
     envOk.base64_decode "Q0E=" = Except.ok [67, 65] ∧
     fs0.WF) ∧
    ((create_cluster envOk st0 fs0 ⟨"prod-eks", ClusterConfig.Eks "prod" "us-east-1"⟩
        ⟨"admin", AuthConfig.AwsSso⟩).res = Except.ok () ∧
     (create_cluster envOk st0 fs0 ⟨"prod-eks", ClusterConfig.Eks "prod" "us-east-1"⟩
        ⟨"admin", AuthConfig.AwsSso⟩).trace =
       [Event.cloudQuery (⟨"admin", AuthConfig.AwsSso⟩ : Auth).name "us-east-1" "prod",
        Event.tempCreate fs0.next,
        Event.tempWrite fs0.next [67, 65],
        Event.createClusterW
          (⟨"prod-eks", ClusterConfig.Eks "prod" "us-east-1"⟩ : Cluster).name
          ["--embed-certs", "--server",
           (⟨"https://eks.example", "Q0E="⟩ : EksCluster).endpoint,
           "--certificate-authority", tempName fs0.next],
        Event.tempDelete fs0.next] ∧
     fs0.next ∉ fs0.files.map Prod.fst ∧
     (create_cluster envOk st0 fs0 ⟨"prod-eks", ClusterConfig.Eks "prod" "us-east-1"⟩
        ⟨"admin", AuthConfig.AwsSso⟩).st =
       { st0 with clusters :=
           (⟨"prod-eks", ClusterConfig.Eks "prod" "us-east-1"⟩ : Cluster).name ::
             st0.clusters }) :=
  ⟨⟨rfl, rfl, rfl, by simp [FS.WF, fs0]⟩,
    C5_create_cluster_eks envOk st0 fs0 ⟨"prod-eks", ClusterConfig.Eks "prod" "us-east-1"⟩
      ⟨"admin", AuthConfig.AwsSso⟩ "prod" "us-east-1" ⟨"https://eks.example", "Q0E="⟩
      [67, 65] rfl rfl rfl rfl rfl rfl rfl (by simp [FS.WF, fs0])⟩

/-- C7: On every exit path of `create_cluster` that the claim enumerates —
success, cloud-query failure, base64-decode failure, temp-file-write
failure, or a store `create_cluster` failure after the temp file was
created (that is, every exit except a failing `close()` of the temp path) —
the temporary certificate-authority file no longer exists: the filesystem's
temp files are exactly the initial ones. -/
theorem C7_temp_file_cleanup (env : Env) (st : Kubeconfig) (fs : FS)
    (cluster : Cluster) (auth : Auth)
    (hwf : fs.WF)
    (hclose : cluster_gates_ok env → env.temppath_close_r = Except.ok ()) :
    (create_cluster env st fs cluster auth).fs.files = fs.files := by
  obtain ⟨cnm, cc⟩ := cluster
  cases cc with
  | Eks n r =>
    have hfilter : fs.files.filter (fun f => f.1 != fs.next) = fs.files :=
      filter_fresh_id fs.files fs.next hwf
    cases h1 : env.get_eks_cluster_r with
    | error e => simp [create_cluster, h1]
    | ok eks =>
      cases h2 : env.base64_decode eks.cert with
      | error e => simp [create_cluster, h1, h2]
      | ok ca =>
        cases h3 : env.tempfile_new_r with
        | error e => simp [create_cluster, h1, h2, h3]
        | ok u3 =>
          obtain ⟨⟩ := u3
          cases h4 : env.tempfile_write_r with
          | error e => simp [create_cluster, h1, h2, h3, h4, FS.remove, hfilter]
          | ok u4 =>
            obtain ⟨⟩ := u4
            cases h5 : env.create_cluster_r with
            | error e => simp [create_cluster, h1, h2, h3, h4, h5, FS.remove, hfilter]
            | ok u5 =>
              obtain ⟨⟩ := u5
              have h6 : env.temppath_close_r = Except.ok () :=
                hclose ⟨⟨eks, ca, h1, h2⟩, h3, h4, h5⟩
              simp [create_cluster, h1, h2, h3, h4, h5, h6, FS.remove, hfilter]

/-- C7 witness: the all-succeeding environment on the §8 cluster. -/
theorem C7_witness :
    (fs0.WF ∧ (cluster_gates_ok envOk → envOk.temppath_close_r = Except.ok ())) ∧
    (create_cluster envOk st0 fs0 ⟨"prod-eks", ClusterConfig.Eks "prod" "us-east-1"⟩
      ⟨"admin", AuthConfig.AwsSso⟩).fs.files = fs0.files :=
  ⟨⟨by simp [FS.WF, fs0], fun _ => rfl⟩,
    C7_temp_file_cleanup envOk st0 fs0 ⟨"prod-eks", ClusterConfig.Eks "prod" "us-east-1"⟩
      ⟨"admin", AuthConfig.AwsSso⟩ (by simp [FS.WF, fs0]) (fun _ => rfl)⟩

/-- C3: When the context is absent, the auth entry named `context.name` is
present and the cluster entry named `context.cluster` is absent, and the
cluster and auth resolve while the cloud query, the temp-file operations
and the store calls succeed, `prepare` succeeds, makes no `create_auth`
call, and creates the cluster entry and the context entry. -/
theorem C3_resume_cluster_only (env : Env) (st : Kubeconfig) (fs : FS)
    (config : Config) (release : Release) (context : Context)
    (cluster : Cluster) (auth : Auth) (cn rg : String)
    (eks : EksCluster) (bytes : List Nat)
    (hg1 : env.context_exists_r = Except.ok ())
    (hg2 : env.auth_exists_r = Except.ok ())
    (hg3 : env.cluster_exists_r = Except.ok ())
    (hg4 : env.create_cluster_r = Except.ok ())
    (hg5 : env.create_context_r = Except.ok ())
    (hctx : release.context ∉ st.contexts)
    (hfind : config.find_context release = Except.ok context)
    (hauth : context.name ∈ st.auths)
    (hclu : context.cluster ∉ st.clusters)
    (hfc : config.find_cluster context = Except.ok cluster)
    (hfa : config.find_auth context = Except.ok auth)
    (hcc : cluster.config = ClusterConfig.Eks cn rg)
    (h1 : env.get_eks_cluster_r = Except.ok eks)
    (h2 : env.base64_decode eks.cert = Except.ok bytes)
    (h3 : env.tempfile_new_r = Except.ok ())
    (h4 : env.tempfile_write_r = Except.ok ())
    (h6 : env.temppath_close_r = Except.ok ()) :
    (prepare env st fs config release).res = Except.ok () ∧
    (∀ nm args, Event.createAuthW nm args ∉ (prepare env st fs config release).trace) ∧
    (∃ args, Event.createClusterW cluster.name args ∈
      (prepare env st fs config release).trace) ∧
    Event.createContextW context.name context.auth context.cluster context.«namespace»
      ∈ (prepare env st fs config release).trace := by
  refine ⟨?_, ?_, ⟨["--embed-certs", "--server", eks.endpoint,
    "--certificate-authority", tempName fs.next], ?_⟩, ?_⟩ <;>
    simp [prepare, create_context, ensure_auth, ensure_cluster, create_cluster,
      hg1, hg2, hg3, hg4, hg5, hctx, hfind, hauth, hclu, hfc, hfa, hcc,
      h1, h2, h3, h4, h6]

/-- C3 witness: the §8 configuration, with the auth entry `prod-ctx`
already present and the cluster entry absent. -/
theorem C3_witness :
    (envOk.context_exists_r = Except.ok () ∧
     rel8.context ∉ (⟨[], ["prod-ctx"], []⟩ : Kubeconfig).contexts ∧
     cfg8.find_context rel8 = Except.ok ctx8 ∧
     ctx8.name ∈ (⟨[], ["prod-ctx"], []⟩ : Kubeconfig).auths ∧
     ctx8.cluster ∉ (⟨[], ["prod-ctx"], []⟩ : Kubeconfig).clusters ∧
     cfg8.find_cluster ctx8 =
       Except.ok ⟨"prod-eks", ClusterConfig.Eks "prod" "us-east-1"⟩ ∧
     cfg8.find_auth ctx8 = Except.ok ⟨"admin", AuthConfig.AwsSso⟩) ∧
    ((prepare envOk ⟨[], ["prod-ctx"], []⟩ fs0 cfg8 rel8).res = Except.ok () ∧
     (∀ nm args, Event.createAuthW nm args ∉
       (prepare envOk ⟨[], ["prod-ctx"], []⟩ fs0 cfg8 rel8).trace) ∧
     (∃ args, Event.createClusterW
        (⟨"prod-eks", ClusterConfig.Eks "prod" "us-east-1"⟩ : Cluster).name args ∈
       (prepare envOk ⟨[], ["prod-ctx"], []⟩ fs0 cfg8 rel8).trace) ∧
     Event.createContextW ctx8.name ctx8.auth ctx8.cluster ctx8.«namespace»
       ∈ (prepare envOk ⟨[], ["prod-ctx"], []⟩ fs0 cfg8 rel8).trace) :=
  ⟨⟨rfl, by simp [rel8], rfl, by simp [ctx8], by simp [ctx8], rfl, rfl⟩,
    C3_resume_cluster_only envOk ⟨[], ["prod-ctx"], []⟩ fs0 cfg8 rel8 ctx8
      ⟨"prod-eks", ClusterConfig.Eks "prod" "us-east-1"⟩ ⟨"admin", AuthConfig.AwsSso⟩
      "prod" "us-east-1" ⟨"https://eks.example", "Q0E="⟩ [67, 65]
      rfl rfl rfl rfl rfl (by simp [rel8]) rfl (by simp [ctx8]) (by simp [ctx8])
      rfl rfl rfl rfl rfl rfl rfl rfl⟩

/-- C9: Every auth-existence check in a `prepare` run queries the store
under the resolved context's own name (`context.name`), and every
cluster-existence check queries under the resolved context's cluster
reference (`context.cluster`); in particular, when the context's auth
profile name differs from the context's name, `prepare` never checks auth
existence under the auth profile's name. -/
theorem C9_exists_check_keys (env : Env) (st : Kubeconfig) (fs : FS)
    (config : Config) (release : Release) :
    (∀ nm, Event.authExistsQ nm ∈ (prepare env st fs config release).trace →
      ∃ context, config.find_context release = Except.ok context ∧
        nm = context.name) ∧
    (∀ nm, Event.clusterExistsQ nm ∈ (prepare env st fs config release).trace →
      ∃ context, config.find_context release = Except.ok context ∧
        nm = context.cluster) ∧
    (∀ context, config.find_context release = Except.ok context →
      context.auth ≠ context.name →
      Event.authExistsQ context.auth ∉ (prepare env st fs config release).trace) := by
  have key : ∀ e ∈ (prepare env st fs config release).trace,
      e = Event.contextExistsQ release.context ∨
      ∃ context, config.find_context release = Except.ok context ∧
        (e = Event.authExistsQ context.name ∨
         (∃ args, e = Event.createAuthW context.name args) ∨
         e = Event.clusterExistsQ context.cluster ∨
         e.fromCreateCluster = true ∨
         e = Event.createContextW context.name context.auth context.cluster
               context.«namespace») := by
    intro e he
    cases hg : env.context_exists_r with
    | error er =>
      simp [prepare, hg] at he
      exact Or.inl he
    | ok u =>
      by_cases hm : release.context ∈ st.contexts
      · simp [prepare, hg, hm] at he
        exact Or.inl he
      · cases hfind : config.find_context release with
        | error er =>
          simp [prepare, hg, hm, hfind] at he
          exact Or.inl he
        | ok context =>
          simp [prepare, hg, hm, hfind] at he
          rcases he with he | he
          · exact Or.inl (by simp [he])
          · exact Or.inr ⟨context, rfl,
              create_context_trace env st fs context config e he⟩
  refine ⟨?_, ?_, ?_⟩
  · intro nm hmem
    rcases key _ hmem with h | ⟨context, hfind, h | ⟨args, h⟩ | h | h | h⟩ <;>
      first
        | (exact ⟨context, hfind, by injection h⟩)
        | simp [Event.fromCreateCluster] at h
  · intro nm hmem
    rcases key _ hmem with h | ⟨context, hfind, h | ⟨args, h⟩ | h | h | h⟩ <;>
      first
        | (exact ⟨context, hfind, by injection h⟩)
        | simp [Event.fromCreateCluster] at h
  · intro context hfind hne hmem
    rcases key _ hmem with h | ⟨context2, hfind2, h | ⟨args, h⟩ | h | h | h⟩ <;>
      first
        | (rw [hfind] at hfind2
           injection hfind2 with hfind2
           subst hfind2
           exact hne (by injection h))
        | simp [Event.fromCreateCluster] at h

/-- C9 witness: in the §8 scenario run the auth-existence check observed in
the trace is keyed `prod-ctx` — the context's name. -/
theorem C9_witness :
    (Event.authExistsQ "prod-ctx" ∈ (prepare envOk st0 fs0 cfg8 rel8).trace) ∧
    (∃ context, cfg8.find_context rel8 = Except.ok context ∧
      "prod-ctx" = context.name) :=
  ⟨by decide,
    (C9_exists_check_keys envOk st0 fs0 cfg8 rel8).1 "prod-ctx" (by decide)⟩

/-- C10: Each ensure step resolves both the Auth and the Cluster before
creating its own entry.  Consequently, when the context's auth profile name
is missing from the configuration, `prepare` fails with `NotFound` citing
it even though the auth store entry already exists and only the cluster
entry needs creating; and symmetrically, when the cluster name is missing,
`prepare` fails with `NotFound` citing it even though the cluster store
entry already exists and only the auth entry needs creating. -/
theorem C10_cross_resolution (env : Env) (st : Kubeconfig) (fs : FS)
    (config : Config) (release : Release) (context : Context)
    (cluster : Cluster) (auth : Auth)
    (hg1 : env.context_exists_r = Except.ok ())
    (hg2 : env.auth_exists_r = Except.ok ())
    (hg3 : env.cluster_exists_r = Except.ok ())
    (hctx : release.context ∉ st.contexts)
    (hfind : config.find_context release = Except.ok context) :
    (context.name ∈ st.auths →
     context.cluster ∉ st.clusters →
     config.find_cluster context = Except.ok cluster →
     config.auths.find? (fun a => a.name == context.auth) = none →
     (prepare env st fs config release).res =
       Except.error (Err.notFound context.auth context.name)) ∧
    (context.name ∉ st.auths →
     context.cluster ∈ st.clusters →
     config.find_auth context = Except.ok auth →
     config.clusters.find? (fun cl => cl.name == context.cluster) = none →
     (prepare env st fs config release).res =
       Except.error (Err.notFound context.cluster context.name)) := by
  constructor
  · intro h1 h2 h3 h4
    have hfa : config.find_auth context =
        Except.error (Err.notFound context.auth context.name) := by
      simp [Config.find_auth, h4]
    simp [prepare, create_context, ensure_auth, ensure_cluster,
      hg1, hg2, hg3, hctx, hfind, h1, h2, h3, hfa]
  · intro h1 h2 h3 h4
    have hfc : config.find_cluster context =
        Except.error (Err.notFound context.cluster context.name) := by
      simp [Config.find_cluster, h4]
    simp [prepare, create_context, ensure_auth, ensure_cluster,
      hg1, hg2, hg3, hctx, hfind, h1, h2, h3, hfc]

/-- C10 witness: the dangling-auth configuration with the auth entry
present and the cluster entry absent (first conjunct's setting). -/
theorem C10_witness :
    (envOk.context_exists_r = Except.ok () ∧
     relD.context ∉ (⟨[], ["c1"], []⟩ : Kubeconfig).contexts ∧
     cfgDangling.find_context relD = Except.ok ctxD) ∧
    ((ctxD.name ∈ (⟨[], ["c1"], []⟩ : Kubeconfig).auths →
      ctxD.cluster ∉ (⟨[], ["c1"], []⟩ : Kubeconfig).clusters →
      cfgDangling.find_cluster ctxD =
        Except.ok ⟨"clX", ClusterConfig.Eks "x" "rX"⟩ →
      cfgDangling.auths.find? (fun a => a.name == ctxD.auth) = none →
      (prepare envOk ⟨[], ["c1"], []⟩ fs0 cfgDangling relD).res =
        Except.error (Err.notFound ctxD.auth ctxD.name)) ∧
     (ctxD.name ∉ (⟨[], ["c1"], []⟩ : Kubeconfig).auths →
      ctxD.cluster ∈ (⟨[], ["c1"], []⟩ : Kubeconfig).clusters →
      cfgDangling.find_auth ctxD = Except.ok ⟨"x", AuthConfig.AwsSso⟩ →
      cfgDangling.clusters.find? (fun cl => cl.name == ctxD.cluster) = none →
      (prepare envOk ⟨[], ["c1"], []⟩ fs0 cfgDangling relD).res =
        Except.error (Err.notFound ctxD.cluster ctxD.name))) :=
  ⟨⟨rfl, by simp [relD], rfl⟩,
    C10_cross_resolution envOk ⟨[], ["c1"], []⟩ fs0 cfgDangling relD ctxD
      ⟨"clX", ClusterConfig.Eks "x" "rX"⟩ ⟨"x", AuthConfig.AwsSso⟩
      rfl rfl rfl (by simp [relD]) rfl⟩

/-- C8 counterexample: a release whose context is absent from the store and
whose auth profile name (`missing-auth`) does not resolve in the
configuration, yet — because both the auth entry (named after the context)
and the cluster entry already exist in the store — `prepare` succeeds with
`Ok` and performs a store write (the context creation), instead of failing
with `NotFound` and performing no store writes as the claim states. -/
theorem C8_counterexample :
    relD.context ∉ stBoth.contexts ∧
    cfgDangling.find_context relD = Except.ok ctxD ∧
    cfgDangling.find_auth ctxD =
      Except.error (Err.notFound "missing-auth" "c1") ∧
    (prepare envOk stBoth fs0 cfgDangling relD).res = Except.ok () ∧
    Event.createContextW "c1" "missing-auth" "clX" none ∈
      (prepare envOk stBoth fs0 cfgDangling relD).trace := by
  refine ⟨by simp [relD, stBoth], rfl, rfl, rfl, by decide⟩

/-- C8 (amended): With the store's existence checks succeeding, a failing
name resolution makes `prepare` fail with `NotFound` citing the missing
name and its referencing entity, with no store-write call, in every case
where the failing lookup is reached: (1) an unknown release name (before
any store interaction); (2) an unresolvable context name; (3) an
unresolvable auth name while the auth entry is absent; (4) an unresolvable
cluster name while the auth entry is absent (auth resolving); (5) an
unresolvable cluster name while the auth entry is present and the cluster
entry absent; (6) an unresolvable auth name while the auth entry is present
and the cluster entry absent (cluster resolving).  (When both the auth and
cluster entries already exist, the dangling name is never looked up and
`prepare` writes the context and succeeds — the counterexample.) -/
theorem C8_notfound_no_writes (env : Env) (st : Kubeconfig) (fs : FS)
    (config : Config) (release : Release) (name : String) (context : Context)
    (cluster : Cluster) (auth : Auth)
    (hg1 : env.context_exists_r = Except.ok ())
    (hg2 : env.auth_exists_r = Except.ok ())
    (hg3 : env.cluster_exists_r = Except.ok ()) :
    (config.releases.find? (fun r => r.name == name) = none →
      (prepare_by_name env st fs config name).res =
        Except.error (Err.notFound name "release") ∧
      (prepare_by_name env st fs config name).trace = []) ∧
    (release.context ∉ st.contexts →
     config.contexts.find? (fun c => c.name == release.context) = none →
      (prepare env st fs config release).res =
        Except.error (Err.notFound release.context release.name) ∧
      ∀ e ∈ (prepare env st fs config release).trace, e.isStoreWrite = false) ∧
    (release.context ∉ st.contexts →
     config.find_context release = Except.ok context →
     context.name ∉ st.auths →
     config.auths.find? (fun a => a.name == context.auth) = none →
      (prepare env st fs config release).res =
        Except.error (Err.notFound context.auth context.name) ∧
      ∀ e ∈ (prepare env st fs config release).trace, e.isStoreWrite = false) ∧
    (release.context ∉ st.contexts →
     config.find_context release = Except.ok context →
     context.name ∉ st.auths →
     config.find_auth context = Except.ok auth →
     config.clusters.find? (fun cl => cl.name == context.cluster) = none →
      (prepare env st fs config release).res =
        Except.error (Err.notFound context.cluster context.name) ∧
      ∀ e ∈ (prepare env st fs config release).trace, e.isStoreWrite = false) ∧
    (release.context ∉ st.contexts →
     config.find_context release = Except.ok context →
     context.name ∈ st.auths →
     context.cluster ∉ st.clusters →
     config.clusters.find? (fun cl => cl.name == context.cluster) = none →
      (prepare env st fs config release).res =
        Except.error (Err.notFound context.cluster context.name) ∧
      ∀ e ∈ (prepare env st fs config release).trace, e.isStoreWrite = false) ∧
    (release.context ∉ st.contexts →
     config.find_context release = Except.ok context →
     context.name ∈ st.auths →
     context.cluster ∉ st.clusters →
     config.find_cluster context = Except.ok cluster →
     config.auths.find? (fun a => a.name == context.auth) = none →
      (prepare env st fs config release).res =
        Except.error (Err.notFound context.auth context.name) ∧
      ∀ e ∈ (prepare env st fs config release).trace, e.isStoreWrite = false) := by
  refine ⟨?_, ?_, ?_, ?_, ?_, ?_⟩
  · intro h
    have hf : config.find_release name =
        Except.error (Err.notFound name "release") := by
      simp [Config.find_release, h]
    exact ⟨by simp [prepare_by_name, hf], by simp [prepare_by_name, hf]⟩
  · intro h1 h2
    have hf : config.find_context release =
        Except.error (Err.notFound release.context release.name) := by
      simp [Config.find_context, h2]
    constructor
    · simp [prepare, hg1, h1, hf]
    · simp [prepare, hg1, h1, hf, Event.isStoreWrite]
  · intro h1 h2 h3 h4
    have hfa : config.find_auth context =
        Except.error (Err.notFound context.auth context.name) := by
      simp [Config.find_auth, h4]
    constructor
    · simp [prepare, create_context, ensure_auth, hg1, hg2, h1, h2, h3, hfa]
    · simp [prepare, create_context, ensure_auth, hg1, hg2, h1, h2, h3, hfa,
        Event.isStoreWrite]
  · intro h1 h2 h3 h4 h5
    have hfc : config.find_cluster context =
        Except.error (Err.notFound context.cluster context.name) := by
      simp [Config.find_cluster, h5]
    constructor
    · simp [prepare, create_context, ensure_auth, hg1, hg2, h1, h2, h3, h4, hfc]
    · simp [prepare, create_context, ensure_auth, hg1, hg2, h1, h2, h3, h4, hfc,
        Event.isStoreWrite]
  · intro h1 h2 h3 h4 h5
    have hfc : config.find_cluster context =
        Except.error (Err.notFound context.cluster context.name) := by
      simp [Config.find_cluster, h5]
    constructor
    · simp [prepare, create_context, ensure_auth, ensure_cluster,
        hg1, hg2, hg3, h1, h2, h3, h4, hfc]
    · simp [prepare, create_context, ensure_auth, ensure_cluster,
        hg1, hg2, hg3, h1, h2, h3, h4, hfc, Event.isStoreWrite]
  · intro h1 h2 h3 h4 h5 h6
    have hfa : config.find_auth context =
        Except.error (Err.notFound context.auth context.name) := by
      simp [Config.find_auth, h6]
    constructor
    · simp [prepare, create_context, ensure_auth, ensure_cluster,
        hg1, hg2, hg3, h1, h2, h3, h4, h5, hfa]
    · simp [prepare, create_context, ensure_auth, ensure_cluster,
        hg1, hg2, hg3, h1, h2, h3, h4, h5, hfa, Event.isStoreWrite]

/-- C8 witness: the dangling-auth configuration with an empty store; the
unknown release name `ghost-release` is covered by the first conjunct. -/
theorem C8_witness :
    (envOk.context_exists_r = Except.ok () ∧
     envOk.auth_exists_r = Except.ok () ∧
     envOk.cluster_exists_r = Except.ok ()) ∧
    ((cfgDangling.releases.find? (fun r => r.name == "ghost-release") = none →
      (prepare_by_name envOk st0 fs0 cfgDangling "ghost-release").res =
        Except.error (Err.notFound "ghost-release" "release") ∧
      (prepare_by_name envOk st0 fs0 cfgDangling "ghost-release").trace = []) ∧
     (relD.context ∉ st0.contexts →
      cfgDangling.contexts.find? (fun c => c.name == relD.context) = none →
      (prepare envOk st0 fs0 cfgDangling relD).res =
        Except.error (Err.notFound relD.context relD.name) ∧
      ∀ e ∈ (prepare envOk st0 fs0 cfgDangling relD).trace, e.isStoreWrite = false) ∧
     (relD.context ∉ st0.contexts →
      cfgDangling.find_context relD = Except.ok ctxD →
      ctxD.name ∉ st0.auths →
      cfgDangling.auths.find? (fun a => a.name == ctxD.auth) = none →
      (prepare envOk st0 fs0 cfgDangling relD).res =
        Except.error (Err.notFound ctxD.auth ctxD.name) ∧
      ∀ e ∈ (prepare envOk st0 fs0 cfgDangling relD).trace, e.isStoreWrite = false) ∧
     (relD.context ∉ st0.contexts →
      cfgDangling.find_context relD = Except.ok ctxD →
      ctxD.name ∉ st0.auths →
      cfgDangling.find_auth ctxD = Except.ok ⟨"x", AuthConfig.AwsSso⟩ →
      cfgDangling.clusters.find? (fun cl => cl.name == ctxD.cluster) = none →
      (prepare envOk st0 fs0 cfgDangling relD).res =
        Except.error (Err.notFound ctxD.cluster ctxD.name) ∧
      ∀ e ∈ (prepare envOk st0 fs0 cfgDangling relD).trace, e.isStoreWrite = false) ∧
     (relD.context ∉ st0.contexts →
      cfgDangling.find_context relD = Except.ok ctxD →
      ctxD.name ∈ st0.auths →
      ctxD.cluster ∉ st0.clusters →
      cfgDangling.clusters.find? (fun cl => cl.name == ctxD.cluster) = none →
      (prepare envOk st0 fs0 cfgDangling relD).res =
        Except.error (Err.notFound ctxD.cluster ctxD.name) ∧
      ∀ e ∈ (prepare envOk st0 fs0 cfgDangling relD).trace, e.isStoreWrite = false) ∧
     (relD.context ∉ st0.contexts →
      cfgDangling.find_context relD = Except.ok ctxD →
      ctxD.name ∈ st0.auths →
      ctxD.cluster ∉ st0.clusters →
      cfgDangling.find_cluster ctxD =
        Except.ok ⟨"clX", ClusterConfig.Eks "x" "rX"⟩ →
      cfgDangling.auths.find? (fun a => a.name == ctxD.auth) = none →
      (prepare envOk st0 fs0 cfgDangling relD).res =
        Except.error (Err.notFound ctxD.auth ctxD.name) ∧
      ∀ e ∈ (prepare envOk st0 fs0 cfgDangling relD).trace, e.isStoreWrite = false)) :=
  ⟨⟨rfl, rfl, rfl⟩,
    C8_notfound_no_writes envOk st0 fs0 cfgDangling relD "ghost-release" ctxD
      ⟨"clX", ClusterConfig.Eks "x" "rX"⟩ ⟨"x", AuthConfig.AwsSso⟩ rfl rfl rfl⟩

end Flightctl
